import Mathlib

/-!
Verification of the Tool Routing Policy and Session Admission Control Engine
(src/tests-and-notes/routing_enforcement_system.py, class CipherRoutingEngine).

The Python module is embedded shallowly: Python ints become Int, Python
floats become Rat (every arithmetic step exercised by the theorems below is
exact, so no rounding behaviour is lost), the mutable session-metrics dict
becomes an association list passed explicitly, and the SQLite ledger becomes
a list of decision records.  Wall-clock fields (selection_timestamp,
start_time, last_update) are omitted: no claim depends on them.  The regular
expression patterns of the source are all of the shape literal .* literal
.* ... literal, so each pattern is represented by its list of literal
chunks, and the match-counting semantics of re.findall on such patterns is
implemented directly (see findallCount).
-/

namespace RoutingEnforcement

/-- Domain enum of routing_enforcement_system.py (lines 60-75). -/
inductive Domain where
  | GITHUB
  | WEB_SCRAPING
  | CODE_ANALYSIS
  | API_TESTING
  | TEST_EXECUTION
  | FILE_OPERATIONS
  | WEB_SEARCH
  | HTTP_REQUESTS
  | KNOWLEDGE_STORAGE
  | DATABASE_OPERATIONS
  | MONITORING
  | UI_DEVELOPMENT
  | INFRASTRUCTURE
  | UNKNOWN
  deriving DecidableEq

/-- TaskCategory enum (lines 37-48). -/
inductive TaskCategory where
  | DEVELOPMENT
  | WEB_RESEARCH
  | API_TESTING
  | FILE_MANAGEMENT
  | DOCUMENTATION
  | SEARCH_OPERATIONS
  | MONITORING
  | DATA_MANAGEMENT
  | UI_DEVELOPMENT
  | INFRASTRUCTURE
  deriving DecidableEq

/-- ToolSelectionStatus enum (lines 51-57). -/
inductive ToolSelectionStatus where
  | COMPLIANT
  | NON_COMPLIANT
  | CONFLICT
  | TIMEOUT
  | ERROR
  deriving DecidableEq

/-- RoutingRule dataclass (lines 78-87).  The task_categories field is
informational and never read by any engine operation, so it is omitted. -/
structure RoutingRule where
  domain : Domain
  preferred_tool : String
  alternative_tools : List String
  forbidden_tools : List String
  priority : Int
  description : String
  deriving DecidableEq

/-- ToolSelection dataclass (lines 90-105), without the wall-clock
selection_timestamp field. -/
structure ToolSelection where
  session_id : String
  agent_type : String
  task_description : String
  task_category : TaskCategory
  detected_domain : Domain
  recommended_tool : String
  selected_tool : String
  selection_status : ToolSelectionStatus
  execution_time_ms : Option Int := none
  success : Bool := true
  error_message : Option String := none
  performance_score : Rat := 0
  deriving DecidableEq

/-- PerformanceMetrics dataclass (lines 108-118), without the wall-clock
start_time and last_update fields. -/
structure PerformanceMetrics where
  session_id : String
  total_calls : Int
  calls_remaining : Int
  execution_mode : String
  average_execution_time : Rat
  success_rate : Rat
  deriving DecidableEq

/-! Matching machinery for the source's regular expressions.  Every pattern
in the module is a sequence of literal chunks joined by the greedy wildcard
dot-star, matched case-insensitively against text that the source has
already lowercased; a pattern is represented here as its list of chunks. -/

/-- Index of the first (leftmost) occurrence of a nonempty literal chunk in
the text, if any. -/
def firstOcc (needle : List Char) : List Char → Option Nat
  | [] => none
  | c :: t =>
    if needle.isPrefixOf (c :: t) then some 0
    else (firstOcc needle t).map (· + 1)

/-- Fuel-bounded scan counting non-overlapping occurrences of a nonempty
literal chunk, left to right.  Every step consumes at least one character of
the text, so fuel equal to the text length (as supplied by countOcc) makes
the bound inert; the fuel only serves structural recursion. -/
def countOccAux (needle : List Char) : Nat → List Char → Nat
  | 0, _ => 0
  | _ + 1, [] => 0
  | fuel + 1, c :: t =>
    if needle.isPrefixOf (c :: t) then countOccAux needle fuel (List.drop (needle.length - 1) t) + 1
    else countOccAux needle fuel t

/-- Number of non-overlapping occurrences of a nonempty literal chunk,
scanning left to right: the behaviour of re.findall on a pattern that
contains no wildcard. -/
def countOcc (needle text : List Char) : Nat :=
  countOccAux needle text.length text

/-- Whether the chunks occur in the text in order, each strictly after the
end of the previous one: existence of a match of the wildcard-joined
pattern.  Taking the earliest occurrence of each chunk in turn is complete
for existence. -/
def chainMatches : List (List Char) → List Char → Bool
  | [], _ => true
  | c :: rest, text =>
    match firstOcc c text with
    | none => false
    | some i => chainMatches rest (text.drop (i + c.length))

/-- Match count of one source pattern under re.findall.  A single-chunk
pattern counts non-overlapping literal occurrences.  For a multi-chunk
pattern the trailing greedy wildcard of the first match extends through the
last occurrence of the final chunk, so re.findall finds at most one match:
the count is one exactly when the chunks occur in order. -/
def findallCount (pat : List String) (text : List Char) : Nat :=
  match pat with
  | [] => 0
  | [l] => countOcc l.toList text
  | _ => if chainMatches (pat.map String.toList) text then 1 else 0

/-- Whether re.search finds a match of the pattern in the text. -/
def searchMatch (pat : List String) (text : List Char) : Bool :=
  chainMatches (pat.map String.toList) text

/-- Lowercased character list of a string (Python str.lower on the ASCII
text handled by the source). -/
def lowerChars (s : String) : List Char :=
  s.toList.map Char.toLower

/-- Total findall count of a list of patterns against a text (the per-domain
score accumulation of detect_domain, lines 416-421). -/
def patternScore (pats : List (List String)) (text : List Char) : Nat :=
  (pats.map (fun p => findallCount p text)).sum

/-- The domain-detection pattern table of detect_domain (lines 358-412), in
the insertion order of the Python dict literal; each regular expression is
given as its list of literal chunks. -/
def domain_detection_table : List (Domain × List (List String)) := [
  (Domain.GITHUB,
    [["github"], ["repository"], ["repo"], ["git"], ["branch"], ["commit"],
     ["pull", "request"], ["pr"], ["issue"], ["fork"], ["star"]]),
  (Domain.WEB_SCRAPING,
    [["scrape"], ["extract", "web"], ["crawl", "web"], ["parse", "html"],
     ["scrape", "site"], ["extract", "data", "from", "web"]]),
  (Domain.CODE_ANALYSIS,
    [["code", "analysis"], ["analyze", "code"], ["search", "code"],
     ["find", "function"], ["find", "class"], ["code", "search"],
     ["indexed", "search"], ["code", "index"]]),
  (Domain.API_TESTING,
    [["api", "test"], ["schema", "validation"], ["openapi"], ["swagger"],
     ["endpoint", "test"], ["http", "test"], ["api", "spec"]]),
  (Domain.TEST_EXECUTION,
    [["run", "test"], ["test", "execution"], ["pytest"], ["unit", "test"],
     ["integration", "test"], ["test", "suite"]]),
  (Domain.FILE_OPERATIONS,
    [["read", "file"], ["write", "file"], ["create", "file"], ["edit", "file"],
     ["list", "files"], ["directory"], ["local", "file"], ["workspace", "file"]]),
  (Domain.WEB_SEARCH,
    [["search", "web"], ["google"], ["bing"], ["online", "search"],
     ["find", "information", "online"], ["web", "query"]]),
  (Domain.HTTP_REQUESTS,
    [["http", "request"], ["curl"], ["wget"], ["request", "url"],
     ["fetch", "url"], ["get", "http"], ["post", "http"]]),
  (Domain.KNOWLEDGE_STORAGE,
    [["store", "knowledge"], ["save", "information"], ["remember"],
     ["knowledge", "base"], ["save", "for", "later"], ["document"]]),
  (Domain.DATABASE_OPERATIONS,
    [["sql", "query"], ["database"], ["select", "from"], ["insert", "into"],
     ["update", "table"], ["run", "query"], ["db", "query"]]),
  (Domain.MONITORING,
    [["metrics"], ["monitoring"], ["prometheus"], ["grafana"],
     ["performance", "monitor"], ["system", "metrics"]]),
  (Domain.UI_DEVELOPMENT,
    [["svelte"], ["ui", "development"], ["frontend"], ["interface"],
     ["gui"], ["web", "component"]]),
  (Domain.INFRASTRUCTURE,
    [["docker"], ["container"], ["kubernetes"], ["deployment"],
     ["infrastructure"], ["devops"]])]

/-- The per-domain scores computed by detect_domain (lines 414-428): the
task description is lowercased and scored against every pattern; when a
context dict is present (Python truthiness: a nonempty dict) its string
serialization is scored as well.  The context argument here is the
already-serialized dict text, none standing for an absent or empty dict. -/
def domainScores (task : String) (contextStr : Option String) : List (Domain × Nat) :=
  let tl := lowerChars task
  domain_detection_table.map (fun dp =>
    (dp.1, patternScore dp.2 tl +
      match contextStr with
      | some ctx => patternScore dp.2 (lowerChars ctx)
      | none => 0))

/-- Maximum of the score values of a score list (Python max over the dict
values; the source list always has 13 entries, so the base value 0 for an
empty list is never consulted). -/
def score_values_max : List (Domain × Nat) → Nat
  | [] => 0
  | p :: t => max p.2 (score_values_max t)

/-- Python max with a key function over a nonempty list: the current best is
replaced only when a later element scores strictly higher, so the first
element attaining the overall maximum wins. -/
def pickBest : Domain × Nat → List (Domain × Nat) → Domain × Nat
  | best, [] => best
  | best, p :: rest => pickBest (if p.2 > best.2 then p else best) rest

/-- detect_domain (lines 352-434): score every domain, return UNKNOWN when
every score is zero, otherwise the first domain of the table attaining the
highest score. -/
def detect_domain (task : String) (contextStr : Option String) : Domain :=
  let scores := domainScores task contextStr
  if score_values_max scores = 0 then Domain.UNKNOWN
  else
    match scores with
    | [] => Domain.UNKNOWN
    | s :: rest => (pickBest s rest).1

/-- The category pattern table of classify_task_category (lines 440-464). -/
def category_table : List (TaskCategory × List (List String)) := [
  (TaskCategory.DEVELOPMENT,
    [["develop"], ["code"], ["program"], ["implement"], ["build"],
     ["create", "function"], ["create", "class"], ["bug", "fix"]]),
  (TaskCategory.WEB_RESEARCH,
    [["research"], ["investigate"], ["explore", "web"], ["find", "information"],
     ["gather", "data"], ["web", "analysis"]]),
  (TaskCategory.API_TESTING,
    [["test", "api"], ["validate", "schema"], ["api", "testing"],
     ["endpoint", "test"], ["swagger", "test"]]),
  (TaskCategory.FILE_MANAGEMENT,
    [["manage", "file"], ["organize", "file"], ["file", "operation"],
     ["directory", "manage"], ["file", "system"]]),
  (TaskCategory.DOCUMENTATION,
    [["document"], ["docs"], ["readme"], ["write", "documentation"],
     ["api", "doc"], ["generate", "doc"]]),
  (TaskCategory.SEARCH_OPERATIONS,
    [["search"], ["find"], ["locate"], ["query"], ["look", "for"]])]

/-- Python max with a key function for category scores, first maximum wins. -/
def pickBestCategory : TaskCategory × Nat → List (TaskCategory × Nat) → TaskCategory × Nat
  | best, [] => best
  | best, p :: rest => pickBestCategory (if p.2 > best.2 then p else best) rest

/-- Maximum of the score values of a category score list. -/
def category_values_max : List (TaskCategory × Nat) → Nat
  | [] => 0
  | p :: t => max p.2 (category_values_max t)

/-- classify_task_category (lines 436-475): score the categories and return
the first one attaining the highest score, DEVELOPMENT when all scores are
zero. -/
def classify_task_category (task : String) : TaskCategory :=
  let tl := lowerChars task
  let scores := category_table.map (fun cp => (cp.1, patternScore cp.2 tl))
  if category_values_max scores = 0 then TaskCategory.DEVELOPMENT
  else
    match scores with
    | [] => TaskCategory.DEVELOPMENT
    | s :: rest => (pickBestCategory s rest).1

/-- The enum value strings of Domain (Python member values). -/
def domain_value : Domain → String
  | Domain.GITHUB => "github"
  | Domain.WEB_SCRAPING => "web_scraping"
  | Domain.CODE_ANALYSIS => "code_analysis"
  | Domain.API_TESTING => "api_testing"
  | Domain.TEST_EXECUTION => "test_execution"
  | Domain.FILE_OPERATIONS => "file_operations"
  | Domain.WEB_SEARCH => "web_search"
  | Domain.HTTP_REQUESTS => "http_requests"
  | Domain.KNOWLEDGE_STORAGE => "knowledge_storage"
  | Domain.DATABASE_OPERATIONS => "database_operations"
  | Domain.MONITORING => "monitoring"
  | Domain.UI_DEVELOPMENT => "ui_development"
  | Domain.INFRASTRUCTURE => "infrastructure"
  | Domain.UNKNOWN => "unknown"

/-- The enum value strings of ToolSelectionStatus. -/
def status_value : ToolSelectionStatus → String
  | ToolSelectionStatus.COMPLIANT => "compliant"
  | ToolSelectionStatus.NON_COMPLIANT => "non_compliant"
  | ToolSelectionStatus.CONFLICT => "conflict"
  | ToolSelectionStatus.TIMEOUT => "timeout"
  | ToolSelectionStatus.ERROR => "error"

/-- The rule-creation pattern table of _parse_routing_rules (lines 155-169):
a routing rule is created for a domain exactly when one of these patterns
matches the system prompt. -/
def parse_pattern_table : List (Domain × List (List String)) := [
  (Domain.GITHUB, [["github"], ["repository"], ["repo"], ["git"]]),
  (Domain.WEB_SCRAPING, [["firecrawl"], ["scraping"], ["extract", "web"], ["crawl", "web"]]),
  (Domain.CODE_ANALYSIS, [["code-index"], ["code", "analysis"], ["search", "code"]]),
  (Domain.API_TESTING, [["schemathesis"], ["api", "test"], ["openapi"]]),
  (Domain.TEST_EXECUTION, [["pytest"], ["test", "execution"]]),
  (Domain.FILE_OPERATIONS, [["filesystem"], ["file", "operation"], ["local", "file"]]),
  (Domain.WEB_SEARCH, [["brave-search"], ["web", "search"], ["online", "search"]]),
  (Domain.HTTP_REQUESTS, [["httpie"], ["http", "request"]]),
  (Domain.KNOWLEDGE_STORAGE, [["memory-bank"], ["knowledge", "storage"]]),
  (Domain.DATABASE_OPERATIONS, [["sql"], ["database", "query"]]),
  (Domain.MONITORING, [["prometheus"], ["metrics"], ["monitoring"]]),
  (Domain.UI_DEVELOPMENT, [["svelte"], ["textual"], ["ui", "development"]]),
  (Domain.INFRASTRUCTURE, [["docker"], ["infrastructure"]])]

/-- The candidate preferred tools per domain of _extract_preferred_tool
(lines 221-243); the default of the Python dict get is the
single-element list containing filesystem. -/
def domain_tool_mapping : Domain → List String
  | Domain.GITHUB => ["github", "github-mcp"]
  | Domain.WEB_SCRAPING => ["firecrawl"]
  | Domain.CODE_ANALYSIS => ["code-index"]
  | Domain.API_TESTING => ["schemathesis"]
  | Domain.TEST_EXECUTION => ["pytest"]
  | Domain.FILE_OPERATIONS => ["filesystem"]
  | Domain.WEB_SEARCH => ["brave-search"]
  | Domain.HTTP_REQUESTS => ["httpie"]
  | Domain.KNOWLEDGE_STORAGE => ["memory-bank"]
  | Domain.DATABASE_OPERATIONS => ["sql"]
  | Domain.MONITORING => ["prometheus"]
  | Domain.UI_DEVELOPMENT => ["svelte", "textual-devtools"]
  | Domain.INFRASTRUCTURE => ["docker"]
  | Domain.UNKNOWN => ["filesystem"]

/-- _extract_preferred_tool (lines 221-243): the first candidate tool whose
name occurs in the system prompt, else the first candidate. -/
def extract_preferred_tool (d : Domain) (promptLower : List Char) : String :=
  let tools := domain_tool_mapping d
  match tools.find? (fun t => searchMatch [t] promptLower) with
  | some t => t
  | none => tools.headD "filesystem"

/-- _extract_alternative_tools (lines 245-264); the dict get default is the
single-element list containing fetch. -/
def extract_alternative_tools : Domain → List String
  | Domain.GITHUB => ["fetch"]
  | Domain.WEB_SCRAPING => ["fetch"]
  | Domain.CODE_ANALYSIS => ["filesystem"]
  | Domain.API_TESTING => ["httpie", "fetch"]
  | Domain.TEST_EXECUTION => []
  | Domain.FILE_OPERATIONS => ["file-batch"]
  | Domain.WEB_SEARCH => ["firecrawl"]
  | Domain.HTTP_REQUESTS => ["fetch"]
  | Domain.KNOWLEDGE_STORAGE => ["filesystem"]
  | Domain.DATABASE_OPERATIONS => []
  | Domain.MONITORING => ["fetch"]
  | Domain.UI_DEVELOPMENT => ["filesystem"]
  | Domain.INFRASTRUCTURE => []
  | Domain.UNKNOWN => ["fetch"]

/-- _extract_forbidden_tools (lines 266-276); the dict get default is the
empty list. -/
def extract_forbidden_tools : Domain → List String
  | Domain.GITHUB => ["fetch", "curl"]
  | Domain.WEB_SCRAPING => ["fetch"]
  | Domain.CODE_ANALYSIS => ["fetch", "manual file scanning"]
  | Domain.WEB_SEARCH => ["fetch", "firecrawl_search"]
  | _ => []

/-- _get_domain_priority (lines 278-295); the dict get default is 999. -/
def get_domain_priority : Domain → Int
  | Domain.GITHUB => 1
  | Domain.WEB_SEARCH => 2
  | Domain.API_TESTING => 3
  | Domain.DATABASE_OPERATIONS => 4
  | Domain.CODE_ANALYSIS => 5
  | Domain.WEB_SCRAPING => 6
  | Domain.KNOWLEDGE_STORAGE => 7
  | Domain.TEST_EXECUTION => 8
  | Domain.FILE_OPERATIONS => 9
  | Domain.MONITORING => 10
  | Domain.HTTP_REQUESTS => 11
  | Domain.UI_DEVELOPMENT => 12
  | Domain.INFRASTRUCTURE => 13
  | Domain.UNKNOWN => 999

/-- The default rule for unknown domains appended by _parse_routing_rules
(lines 207-215). -/
def default_rule : RoutingRule :=
  { domain := Domain.UNKNOWN
    preferred_tool := "filesystem"
    alternative_tools := ["fetch", "httpie"]
    forbidden_tools := []
    priority := 999
    description := "Default routing rule for unknown domains" }

/-- _parse_routing_rules (lines 149-219): create one rule per domain whose
trigger patterns match the system prompt, then append the default rule.
The matched_categories computation only fills the informational
task_categories field, which no engine operation reads, and is omitted. -/
def parse_routing_rules (systemPrompt : String) : List RoutingRule :=
  let pl := lowerChars systemPrompt
  (parse_pattern_table.filterMap (fun dp =>
    if dp.2.any (fun p => searchMatch p pl) then
      some { domain := dp.1
             preferred_tool := extract_preferred_tool dp.1 pl
             alternative_tools := extract_alternative_tools dp.1
             forbidden_tools := extract_forbidden_tools dp.1
             priority := get_domain_priority dp.1
             description := "Routing rule for " ++ domain_value dp.1 ++ " operations" }
    else none)) ++ [default_rule]

/-- The best-rule scan of get_routing_recommendation (lines 482-486): the
rule for the domain with the smallest priority, scanning in list order and
keeping the earlier rule on priority ties. -/
def best_rule_for (rules : List RoutingRule) (d : Domain) : Option RoutingRule :=
  rules.foldl (fun acc r =>
    if r.domain == d then
      match acc with
      | none => some r
      | some b => if r.priority < b.priority then some r else some b
    else acc) none

/-- The recommended tool for a detected domain (lines 488-494): the best
rule's preferred tool, falling back to the first UNKNOWN rule, then to
filesystem. -/
def recommend_tool (rules : List RoutingRule) (d : Domain) : String :=
  let best :=
    match best_rule_for rules d with
    | some b => some b
    | none => rules.find? (fun r => r.domain == Domain.UNKNOWN)
  match best with
  | some b => b.preferred_tool
  | none => "filesystem"

/-- get_routing_recommendation (lines 477-494). -/
def get_routing_recommendation (rules : List RoutingRule) (task : String)
    (contextStr : Option String) : Domain × String :=
  let d := detect_domain task contextStr
  (d, recommend_tool rules d)

/-- The rule lookup used twice inside validate_tool_selection (lines 506 and
513): the first rule in list order whose domain matches. -/
def first_rule_for (rules : List RoutingRule) (d : Domain) : Option RoutingRule :=
  rules.find? (fun r => r.domain == d)

/-- The pure part of validate_tool_selection (lines 496-528): compute the
recommendation, classify the task, decide the compliance status (tentative
verdict from equality with the recommended tool or membership in the
alternatives, then the forbidden check forcing NON_COMPLIANT), and build the
ToolSelection record with its dataclass defaults for execution_time_ms,
success, error_message and performance_score. -/
def build_selection (rules : List RoutingRule) (session_id agent_type task selected : String)
    (contextStr : Option String) : ToolSelection :=
  let d := detect_domain task contextStr
  let recommended := recommend_tool rules d
  let st0 :=
    if selected = recommended then ToolSelectionStatus.COMPLIANT
    else
      match first_rule_for rules d with
      | some rule =>
        if selected ∈ rule.alternative_tools then ToolSelectionStatus.COMPLIANT
        else ToolSelectionStatus.NON_COMPLIANT
      | none => ToolSelectionStatus.NON_COMPLIANT
  let st :=
    match first_rule_for rules d with
    | some rule =>
      if selected ∈ rule.forbidden_tools then ToolSelectionStatus.NON_COMPLIANT else st0
    | none => st0
  { session_id := session_id
    agent_type := agent_type
    task_description := task
    task_category := classify_task_category task
    detected_domain := d
    recommended_tool := recommended
    selected_tool := selected
    selection_status := st }

/-- Errors observable from the engine: a failing database statement, or the
session error the specification names (which the source never defines nor
raises). -/
inductive EngineError where
  | persistence (message : String)
  | unknownSession (session_id : String)
  deriving DecidableEq

/-- validate_tool_selection together with _store_selection (lines 496-551):
the record is built, then inserted into the routing_decisions table by a
plain sqlite execute with no surrounding try/except, so a database error
propagates out of validate_tool_selection and the built record is not
returned.  The ledger is the list of stored records and insertOutcome is
the database's response to this INSERT (none meaning success). -/
def validate_tool_selection (rules : List RoutingRule) (ledger : List ToolSelection)
    (insertOutcome : Option EngineError) (session_id agent_type task selected : String)
    (contextStr : Option String) :
    Except EngineError (List ToolSelection × ToolSelection) :=
  let sel := build_selection rules session_id agent_type task selected contextStr
  match insertOutcome with
  | none => Except.ok (ledger ++ [sel], sel)
  | some e => Except.error e

/-- The in-memory session_metrics dict of the engine, as an association
list in insertion order. -/
abbrev SessionMap : Type := List (String × PerformanceMetrics)

/-- Dict lookup on the session map: the first entry carrying the key. -/
def lookupSession : SessionMap → String → Option PerformanceMetrics
  | [], _ => none
  | p :: t, sid => if p.1 == sid then some p.2 else lookupSession t sid

/-- track_session_performance (lines 553-581): create the metrics record
with a full budget, a 100 percent success rate and a zero average when the
session id is unseen, otherwise leave the map untouched; in both cases the
stored record for the id is returned.  The mirror write to the
session_metrics SQLite table has no further reader in the module and is
omitted. -/
def track_session_performance (m : SessionMap) (sid mode : String) (max_calls : Int) :
    SessionMap × PerformanceMetrics :=
  match lookupSession m sid with
  | some pm => (m, pm)
  | none =>
    let pm : PerformanceMetrics :=
      { session_id := sid
        total_calls := max_calls
        calls_remaining := max_calls
        execution_mode := mode
        average_execution_time := 0
        success_rate := 100 }
    ((m : List (String × PerformanceMetrics)) ++ [(sid, pm)], pm)

/-- The in-place mutation of one metrics record performed by
update_session_call (lines 588-603): floor the remaining budget at zero,
blend the average execution time two-point style, and recompute the success
rate by reconstructing the running success count from the previous rate and
the number of calls made so far (total_calls minus the already decremented
calls_remaining). -/
def updated_metrics (pm : PerformanceMetrics) (execution_time_ms : Int) (success : Bool) :
    PerformanceMetrics :=
  let remaining := max 0 (pm.calls_remaining - 1)
  let avg :=
    if pm.average_execution_time = 0 then (execution_time_ms : Rat)
    else (pm.average_execution_time + (execution_time_ms : Rat)) / 2
  let made : Int := pm.total_calls - remaining
  let rate :=
    if made > 0 then
      let count := pm.success_rate * (made : Rat) / 100
      let count' := if success then count + 1 else count
      count' / (made : Rat) * 100
    else pm.success_rate
  { pm with
    calls_remaining := remaining
    average_execution_time := avg
    success_rate := rate }

/-- update_session_call (lines 583-603): mutate the stored record when the
session id is tracked, otherwise do nothing. -/
def update_session_call (m : SessionMap) (sid : String) (execution_time_ms : Int)
    (success : Bool) : SessionMap :=
  match lookupSession m sid with
  | some _ =>
    (m : List (String × PerformanceMetrics)).map (fun p =>
      if p.1 == sid then (p.1, updated_metrics p.2 execution_time_ms success) else p)
  | none => m

/-- The call outcome of update_session_call as observed by its caller: the
method body touches only the in-memory map under the session lock and
contains no raise statement (and no UnknownSessionError class exists
anywhere in the source), so the call always completes normally. -/
def update_session_call_outcome (m : SessionMap) (sid : String) (execution_time_ms : Int)
    (success : Bool) : Except EngineError SessionMap :=
  Except.ok (update_session_call m sid execution_time_ms success)

/-- The dict returned by check_performance_constraints, as a structure; the
untracked-session branch of the source returns a two-key dict with
violation false and a message, which here fills the remaining fields with
defaults. -/
structure ConstraintsReport where
  violation : Bool
  violations : List String := []
  message : Option String := none
  calls_remaining : Int := 0
  execution_mode : String := ""
  average_execution_time : Rat := 0
  success_rate : Rat := 0
  deriving DecidableEq

/-- check_performance_constraints (lines 605-628): an untracked session
reports no violation; otherwise a violation message is collected when
calls_remaining is negative and another when the execution mode is not
serial, and the violation flag is the non-emptiness of that list. -/
def check_performance_constraints (m : SessionMap) (sid : String) : ConstraintsReport :=
  match lookupSession m sid with
  | none => { violation := false, message := some "Session not tracked" }
  | some pm =>
    let v1 : List String :=
      if pm.calls_remaining < 0 then ["Exceeded call limit"] else []
    let v2 : List String :=
      if pm.execution_mode ≠ "serial" then ["Non-serial execution mode"] else []
    let vs := v1 ++ v2
    { violation := vs.length > 0
      violations := vs
      calls_remaining := pm.calls_remaining
      execution_mode := pm.execution_mode
      average_execution_time := pm.average_execution_time
      success_rate := pm.success_rate }

/-- One row of the routing_decisions SELECT scanned by
analyze_routing_patterns (lines 718-724): the enum-valued columns are the
stored value strings. -/
structure DecisionRow where
  detected_domain : String
  recommended_tool : String
  selected_tool : String
  selection_status : String
  success : Bool
  execution_time_ms : Option Int
  deriving DecidableEq

/-- The row stored for a ToolSelection by _store_selection, restricted to
the columns the analysis reads back. -/
def decision_row_of (s : ToolSelection) : DecisionRow :=
  { detected_domain := domain_value s.detected_domain
    recommended_tool := s.recommended_tool
    selected_tool := s.selected_tool
    selection_status := status_value s.selection_status
    success := s.success
    execution_time_ms := s.execution_time_ms }

/-- The headline aggregates of analyze_routing_patterns (lines 731-765). -/
structure RoutingAnalysis where
  total_decisions : Nat
  compliance_rate : Rat
  success_rate : Rat
  deriving DecidableEq

/-- analyze_routing_patterns (lines 712-784) on the rows inside the
analysis window: none models the error dict returned for an empty window;
otherwise the compliance rate is the fraction of rows whose stored status
string is compliant and the success rate the fraction of rows whose success
column is true, both times 100.  The per-domain and per-tool breakdowns and
the recommendation list are downstream of these aggregates and are not
needed by any claim. -/
def analyze_routing_patterns (decisions : List DecisionRow) : Option RoutingAnalysis :=
  if decisions.isEmpty then none
  else
    let total := decisions.length
    let compliant := (decisions.filter (fun d => d.selection_status == "compliant")).length
    let successful := (decisions.filter (fun d => d.success)).length
    some { total_decisions := total
           compliance_rate := ((compliant : Rat) / (total : Rat)) * 100
           success_rate := ((successful : Rat) / (total : Rat)) * 100 }

/-- Iterated RecordCall: fold update_session_call over a list of
(execution_time_ms, success) pairs. -/
def recordCalls (m : SessionMap) (sid : String) : List (Int × Bool) → SessionMap
  | [] => m
  | c :: rest => recordCalls (update_session_call m sid c.1 c.2) sid rest

/-- The calls_remaining value of a freshly initialized session after a list
of recorded calls (the untracked fallback value max_calls is never reached
for the session id just initialized). -/
def calls_remaining_after (sid mode : String) (max_calls : Int)
    (calls : List (Int × Bool)) : Int :=
  match lookupSession (recordCalls (track_session_performance [] sid mode max_calls).1 sid calls) sid with
  | some pm => pm.calls_remaining
  | none => max_calls

/-! Concrete instances used by the theorems below. -/

/-- A concrete system prompt naming every preferred tool, so that
parse_routing_rules creates the rule for every domain (in particular the
WEB_SEARCH rule recommending brave-search) plus the default rule. -/
def samplePrompt : String :=
  "github firecrawl code-index schemathesis pytest filesystem brave-search httpie memory-bank sql prometheus svelte docker"

/-- The rule table the engine builds from samplePrompt: all 13 domain rules
and the default UNKNOWN rule. -/
def sampleRules : List RoutingRule :=
  parse_routing_rules samplePrompt

/-- The GITHUB rule contained in sampleRules, written out. -/
def sampleGithubRule : RoutingRule :=
  { domain := Domain.GITHUB
    preferred_tool := "github"
    alternative_tools := ["fetch"]
    forbidden_tools := ["fetch", "curl"]
    priority := 1
    description := "Routing rule for github operations" }

/-- The metrics record created for a fresh session with a budget of 8. -/
def samplePm : PerformanceMetrics :=
  (track_session_performance [] "other" "serial" 8).2

/-- A session map holding one session after one failed recorded call. -/
def sampleSession : SessionMap :=
  update_session_call (track_session_performance [] "s1" "serial" 8).1 "s1" 100 false

/-- A one-row analysis window produced by a validation call. -/
def sampleRow : DecisionRow :=
  decision_row_of (build_selection sampleRules "s1" "cline" "Read local file" "filesystem" none)

/-! Theorems settling the claims. -/

set_option maxRecDepth 16000 in
/-- Claim C1.  Evaluation of the code at the claimed scenario: the task
Search for Python tutorials online (with empty context) is classified as
UNKNOWN, because no WEB_SEARCH detection pattern matches it (the pattern
online-then-search requires the words in the opposite order and the text
contains neither web, google, bing nor find); the recommendation is
therefore filesystem from the default rule, selecting brave-search is
judged NON_COMPLIANT, and selecting fetch is judged COMPLIANT (fetch is an
alternative of the default rule) — the opposite of the claim, even though
the rule store does hold the WEB_SEARCH rule recommending brave-search.
The repository's own test suite (phase5_validation_test.py) asserts the
claimed behaviour, so the code contradicts its own tests. -/
theorem C1_scenario_evaluation :
    detect_domain "Search for Python tutorials online" none = Domain.UNKNOWN ∧
    get_routing_recommendation sampleRules "Search for Python tutorials online" none =
      (Domain.UNKNOWN, "filesystem") ∧
    (build_selection sampleRules "s1" "cline" "Search for Python tutorials online"
        "brave-search" none).selection_status = ToolSelectionStatus.NON_COMPLIANT ∧
    (build_selection sampleRules "s1" "cline" "Search for Python tutorials online"
        "fetch" none).selection_status = ToolSelectionStatus.COMPLIANT ∧
    sampleRules.any (fun r => r.domain == Domain.WEB_SEARCH &&
      r.preferred_tool == "brave-search") = true := by
  refine ⟨by decide, ?_, by decide, by decide, by decide⟩
  unfold get_routing_recommendation
  refine Prod.ext (by decide) (by decide)

/-- Claim C2.  Evaluation of the code at the claimed scenario: after
initializing session s1 in serial mode with a budget of 8 and recording 8
calls, calls_remaining is 0; after a 9th recorded call it is still 0, but
check_performance_constraints reports no violation, because its budget
check tests calls_remaining strictly below zero — a condition that
update_session_call's flooring makes unreachable, so the Exceeded-call-limit
branch of the source is dead code and the claimed budget-exceeded report
never happens. -/
theorem C2_scenario_evaluation :
    calls_remaining_after "s1" "serial" 8 (List.replicate 8 (100, false)) = 0 ∧
    calls_remaining_after "s1" "serial" 8 (List.replicate 9 (100, false)) = 0 ∧
    (check_performance_constraints
        (recordCalls (track_session_performance [] "s1" "serial" 8).1 "s1"
          (List.replicate 9 (100, false))) "s1").violation = false := by
  refine ⟨?_, ?_, ?_⟩ <;>
    norm_num [calls_remaining_after, recordCalls, update_session_call, updated_metrics,
      lookupSession, track_session_performance, check_performance_constraints, List.replicate]

/-- Claim C6.  Evaluation of the code at the failing input: for a fresh
session with a budget of 8, a single successful recorded call drives
success_rate to 200, not the 100 the claim's formula (100 times successes
over calls made) prescribes; the update reconstructs the running success
count from the previous rate with the already-incremented call count and a
100 percent initial rate, overcounting successes. -/
theorem C6_success_rate_evaluation :
    (lookupSession
        (update_session_call (track_session_performance [] "s1" "serial" 8).1 "s1" 2500 true)
        "s1").map PerformanceMetrics.success_rate = some 200 ∧
    (200 : Rat) ≠ 100 := by
  constructor
  · norm_num [lookupSession, track_session_performance, update_session_call, updated_metrics]
  · norm_num

/-- Claim C3 (confirmed): whenever the rule resolved for the detected domain
lists the selected tool among its forbidden tools, the validation status is
NON_COMPLIANT — the forbidden check runs last and overrides the tentative
verdict, so this holds even when the selected tool is also an alternative
or equals the recommended tool. -/
theorem C3_forbidden_overrides (rules : List RoutingRule)
    (session_id agent_type task selected : String) (contextStr : Option String)
    (rule : RoutingRule)
    (hrule : first_rule_for rules (detect_domain task contextStr) = some rule)
    (hforb : selected ∈ rule.forbidden_tools) :
    (build_selection rules session_id agent_type task selected contextStr).selection_status =
      ToolSelectionStatus.NON_COMPLIANT := by
  simp only [build_selection, hrule]
  rw [if_pos hforb]

/-- Witness for C3: for the task of creating a GitHub repository the
resolved rule is the GITHUB rule, whose forbidden tools contain fetch —
which is simultaneously its only alternative tool, exercising the
forbidden-overrides-alternative case. -/
theorem C3_forbidden_overrides_witness :
    (build_selection sampleRules "s1" "cline" "Create a new repository on GitHub"
        "fetch" none).selection_status = ToolSelectionStatus.NON_COMPLIANT :=
  C3_forbidden_overrides sampleRules "s1" "cline" "Create a new repository on GitHub"
    "fetch" none sampleGithubRule (by decide) (by decide)

/-- Claim C4, counterexample: when the INSERT into the decision store fails,
validate_tool_selection does not return the verdict — the error propagates
to the caller, because _store_selection has no exception handler. -/
theorem C4_counterexample :
    validate_tool_selection sampleRules [] (some (EngineError.persistence "database is locked"))
      "s1" "cline" "Read local file" "filesystem" none =
      Except.error (EngineError.persistence "database is locked") := rfl

/-- Claim C4, amended: a ledger-append failure is raised to the caller of
validate_tool_selection and the verdict is returned only when the
decision-record write succeeds. -/
theorem C4_amended_store_failure_propagates (rules : List RoutingRule)
    (ledger : List ToolSelection) (e : EngineError)
    (session_id agent_type task selected : String) (contextStr : Option String) :
    validate_tool_selection rules ledger (some e) session_id agent_type task selected
        contextStr = Except.error e ∧
    validate_tool_selection rules ledger none session_id agent_type task selected contextStr =
      Except.ok
        (ledger ++ [build_selection rules session_id agent_type task selected contextStr],
          build_selection rules session_id agent_type task selected contextStr) :=
  ⟨rfl, rfl⟩

/-- Claim C5, counterexample: a RecordCall for a session id that was never
initialized completes normally (no UnknownSessionError is raised; the
source defines no such error) and returns the map unchanged. -/
theorem C5_counterexample :
    update_session_call_outcome [] "ghost" 100 true = Except.ok [] := rfl

/-- Claim C5, amended: RecordCall on a session never initialized is a
silent no-op — no error is raised (nothing is logged either, the branch has
no logging call) and the session-metrics state is unchanged. -/
theorem C5_amended_unknown_session_noop (m : SessionMap) (sid : String)
    (execution_time_ms : Int) (success : Bool)
    (h : lookupSession m sid = none) :
    update_session_call_outcome m sid execution_time_ms success = Except.ok m := by
  unfold update_session_call_outcome update_session_call
  rw [h]

/-- Witness for the amended C5: a map holding only a different session is
returned untouched. -/
theorem C5_amended_witness :
    update_session_call_outcome [("other", samplePm)] "ghost" 50 false =
      Except.ok [("other", samplePm)] :=
  C5_amended_unknown_session_noop [("other", samplePm)] "ghost" 50 false (by decide)

/-- Claim C9 (confirmed): for a session id already present in the metrics
map, a repeated InitSession call with any mode and budget leaves the map
unchanged and returns the existing record — in particular calls_remaining
is not reset. -/
theorem C9_init_idempotent (m : SessionMap) (sid mode : String) (max_calls : Int)
    (pm : PerformanceMetrics) (h : lookupSession m sid = some pm) :
    track_session_performance m sid mode max_calls = (m, pm) := by
  unfold track_session_performance
  rw [h]

/-- Witness for C9: after one recorded call has brought the budget to 7, a
repeat init with different mode and budget returns the stored record with
calls_remaining still 7 and leaves the map unchanged. -/
theorem C9_init_idempotent_witness :
    track_session_performance sampleSession "s1" "parallel" 99 =
      (sampleSession,
        { session_id := "s1", total_calls := 8, calls_remaining := 7,
          execution_mode := "serial", average_execution_time := 100, success_rate := 100 }) :=
  C9_init_idempotent sampleSession "s1" "parallel" 99 _
    (by norm_num [sampleSession, track_session_performance, lookupSession,
      update_session_call, updated_metrics])

/-- Claim C10 (confirmed): every record built by validate_tool_selection
carries the dataclass defaults success true and execution_time_ms none, no
engine operation updates a stored record (the ledger is append-only), and
for any non-empty analysis window containing only records written by the
validator the analytics success rate is 100 percent, whatever the actual
tool outcomes were. -/
theorem C10_validator_records_always_successful (rules : List RoutingRule)
    (session_id agent_type task selected : String) (contextStr : Option String)
    (rows : List DecisionRow) (hne : rows ≠ [])
    (hall : ∀ r ∈ rows, ∃ s a t sel c,
      r = decision_row_of (build_selection rules s a t sel c)) :
    (build_selection rules session_id agent_type task selected contextStr).success = true ∧
    (build_selection rules session_id agent_type task selected
        contextStr).execution_time_ms = none ∧
    (analyze_routing_patterns rows).map RoutingAnalysis.success_rate = some 100 := by
  refine ⟨rfl, rfl, ?_⟩
  have hsucc : ∀ r ∈ rows, r.success = true := by
    intro r hr
    obtain ⟨s, a, t, sel, c, rfl⟩ := hall r hr
    rfl
  have hfilter : rows.filter (fun d => d.success) = rows :=
    List.filter_eq_self.mpr (fun a ha => hsucc a ha)
  have hlen : (rows.length : Rat) ≠ 0 := by
    have := List.length_pos.mpr hne
    exact_mod_cast Nat.pos_iff_ne_zero.mp this
  cases rows with
  | nil => exact absurd rfl hne
  | cons r t =>
    unfold analyze_routing_patterns
    rw [hfilter]
    simp only [List.isEmpty_cons, Bool.false_eq_true, if_false]
    rw [div_self (by exact_mod_cast hlen), one_mul]
    rfl

/-- Witness for C10: a one-record window written by a validation of a
compliant filesystem selection analyzes to a 100 percent success rate. -/
theorem C10_validator_records_witness :
    (build_selection sampleRules "s1" "cline" "Read local file" "filesystem" none).success =
      true ∧
    (build_selection sampleRules "s1" "cline" "Read local file"
        "filesystem" none).execution_time_ms = none ∧
    (analyze_routing_patterns [sampleRow]).map RoutingAnalysis.success_rate = some 100 :=
  C10_validator_records_always_successful sampleRules "s1" "cline" "Read local file"
    "filesystem" none [sampleRow] (List.cons_ne_nil _ _)
    (by
      intro r hr
      rw [List.mem_singleton] at hr
      subst hr
      exact ⟨"s1", "cline", "Read local file", "filesystem", none, rfl⟩)

/-- Claim C7, counterexample: on the input scrape google the domains
WEB_SCRAPING and WEB_SEARCH tie at the strictly highest score 1 (every
other domain scores 0), the rule priority of WEB_SEARCH (2) is smaller than
that of WEB_SCRAPING (6), yet detect_domain returns WEB_SCRAPING — the tie
is not resolved by the rule-priority order. -/
theorem C7_counterexample :
    detect_domain "scrape google" none = Domain.WEB_SCRAPING ∧
    Domain.WEB_SCRAPING ≠ Domain.WEB_SEARCH ∧
    (domainScores "scrape google" none).map Prod.snd =
      [0, 1, 0, 0, 0, 0, 1, 0, 0, 0, 0, 0, 0] ∧
    get_domain_priority Domain.WEB_SEARCH < get_domain_priority Domain.WEB_SCRAPING := by
  refine ⟨by decide, by decide, by decide, by decide⟩

/-- The score reached by the Python max scan equals the maximum score of
the whole list. -/
theorem pickBest_snd (rest : List (Domain × Nat)) : ∀ best : Domain × Nat,
    (pickBest best rest).2 = score_values_max (best :: rest) := by
  induction rest with
  | nil =>
    intro best
    simp [pickBest, score_values_max]
  | cons p t ih =>
    intro best
    show (pickBest (if p.2 > best.2 then p else best) t).2 =
      score_values_max (best :: p :: t)
    rw [ih]
    by_cases h : p.2 > best.2
    · simp only [if_pos h, score_values_max]
      omega
    · simp only [if_neg h, score_values_max]
      omega

/-- The element reached by the Python max scan is the first element of the
list attaining the maximum score: the current best is replaced only on a
strictly higher score. -/
theorem pickBest_eq_find (rest : List (Domain × Nat)) : ∀ best : Domain × Nat, ∀ M : Nat,
    M = score_values_max (best :: rest) →
    (best :: rest).find? (fun p => p.2 == M) = some (pickBest best rest) := by
  induction rest with
  | nil =>
    intro best M hM
    simp only [score_values_max, Nat.max_zero] at hM
    simp [pickBest, List.find?, hM]
  | cons p t ih =>
    intro best M hM
    simp only [score_values_max] at hM
    show List.find? (fun p => p.2 == M) (best :: p :: t) =
      some (pickBest (if p.2 > best.2 then p else best) t)
    by_cases h : p.2 > best.2
    · rw [if_pos h]
      have hbest : ¬ best.2 = M := by
        have hle : p.2 ≤ score_values_max t ⊔ p.2 ⊔ p.2 := by omega
        omega
      have ihp := ih p M (by simp only [score_values_max]; omega)
      rw [List.find?_cons_of_neg _ (by simpa using hbest)]
      exact ihp
    · rw [if_neg h]
      have ihb := ih best M (by simp only [score_values_max]; omega)
      by_cases hb : best.2 = M
      · rw [List.find?_cons_of_pos _ (by simpa using hb)]
        rw [List.find?_cons_of_pos _ (by simpa using hb)] at ihb
        exact ihb
      · have hp : ¬ p.2 = M := by omega
        rw [List.find?_cons_of_neg _ (by simpa using hb),
          List.find?_cons_of_neg _ (by simpa using hp)]
        rw [List.find?_cons_of_neg _ (by simpa using hb)] at ihb
        exact ihb

/-- Claim C7, amended: whenever some domain scores positively (in
particular for every tied input), detect_domain returns the first domain of
the fixed pattern-table order that attains the highest score — a
deterministic tie-break, but by table insertion order, not by the
rule-priority order. -/
theorem C7_amended_tie_broken_by_table_order (task : String) (contextStr : Option String)
    (h : score_values_max (domainScores task contextStr) ≠ 0) :
    (domainScores task contextStr).find?
        (fun p => p.2 == score_values_max (domainScores task contextStr)) =
      some (detect_domain task contextStr,
        score_values_max (domainScores task contextStr)) := by
  unfold detect_domain
  rw [if_neg h]
  cases hs : domainScores task contextStr with
  | nil =>
    rw [hs] at h
    exact absurd rfl h
  | cons s rest =>
    have hfind := pickBest_eq_find rest s (score_values_max (s :: rest)) rfl
    have hsnd := pickBest_snd rest s
    show List.find? (fun p => p.2 == score_values_max (s :: rest)) (s :: rest) =
      some ((pickBest s rest).1, score_values_max (s :: rest))
    rw [hfind]
    exact congrArg some (Prod.ext rfl hsnd)

/-- Witness for the amended C7: on the tied input scrape google the first
domain of the table attaining the maximal score is the returned one. -/
theorem C7_amended_witness :
    (domainScores "scrape google" none).find?
        (fun p => p.2 == score_values_max (domainScores "scrape google" none)) =
      some (detect_domain "scrape google" none,
        score_values_max (domainScores "scrape google" none)) :=
  C7_amended_tie_broken_by_table_order "scrape google" none (by decide)

/-- Updating a tracked session rewrites exactly its stored record. -/
theorem lookupSession_update (sid : String) (ms : Int) (ok : Bool) :
    ∀ (m : SessionMap) (pm : PerformanceMetrics), lookupSession m sid = some pm →
      lookupSession (update_session_call m sid ms ok) sid =
        some (updated_metrics pm ms ok) := by
  intro m
  induction m with
  | nil =>
    intro pm h
    simp [lookupSession] at h
  | cons a t ih =>
    intro pm h
    by_cases hk : (a.1 == sid) = true
    · rw [lookupSession, if_pos hk] at h
      rw [update_session_call, lookupSession, if_pos hk]
      rw [List.map_cons, if_pos hk, lookupSession, if_pos hk]
      rw [Option.some_inj] at h
      rw [h]
    · rw [lookupSession, if_neg hk] at h
      rw [update_session_call, lookupSession, if_neg hk, h]
      rw [List.map_cons, if_neg hk, lookupSession, if_neg hk]
      have := ih pm h
      rw [update_session_call, h] at this
      exact this

/-- recordCalls peels its last call as one trailing update. -/
theorem recordCalls_append (sid : String) (c : Int × Bool) :
    ∀ (calls : List (Int × Bool)) (m : SessionMap),
      recordCalls m sid (calls ++ [c]) =
        update_session_call (recordCalls m sid calls) sid c.1 c.2 := by
  intro calls
  induction calls with
  | nil => intro m; rfl
  | cons a t ih =>
    intro m
    rw [List.cons_append, recordCalls, recordCalls]
    exact ih (update_session_call m sid a.1 a.2)

/-- A tracked session stays tracked across any sequence of recorded calls,
with a never-negative remaining budget. -/
theorem recordCalls_tracked (sid : String) :
    ∀ (calls : List (Int × Bool)) (m : SessionMap) (pm : PerformanceMetrics),
      lookupSession m sid = some pm → 0 ≤ pm.calls_remaining →
      ∃ pm', lookupSession (recordCalls m sid calls) sid = some pm' ∧
        0 ≤ pm'.calls_remaining := by
  intro calls
  induction calls with
  | nil =>
    intro m pm h h0
    exact ⟨pm, h, h0⟩
  | cons a t ih =>
    intro m pm h h0
    rw [recordCalls]
    have h1 := lookupSession_update sid a.1 a.2 m pm h
    refine ih (update_session_call m sid a.1 a.2) (updated_metrics pm a.1 a.2) h1 ?_
    show 0 ≤ (updated_metrics pm a.1 a.2).calls_remaining
    simp only [updated_metrics]
    exact le_max_left 0 (pm.calls_remaining - 1)

/-- Claim C8 (confirmed): for a session initialized with a non-negative
budget, the remaining budget after any sequence of recorded calls is never
below zero, and one further recorded call can only keep or decrease it. -/
theorem C8_budget_monotone (sid mode : String) (max_calls : Int)
    (hmc : 0 ≤ max_calls) (calls : List (Int × Bool)) (c : Int × Bool) :
    0 ≤ calls_remaining_after sid mode max_calls calls ∧
    calls_remaining_after sid mode max_calls (calls ++ [c]) ≤
      calls_remaining_after sid mode max_calls calls := by
  have hinit : lookupSession (track_session_performance [] sid mode max_calls).1 sid =
      some { session_id := sid, total_calls := max_calls, calls_remaining := max_calls,
             execution_mode := mode, average_execution_time := 0, success_rate := 100 } := by
    simp [track_session_performance, lookupSession]
  obtain ⟨pm', hl, h0⟩ := recordCalls_tracked sid calls _ _ hinit hmc
  have hnext := lookupSession_update sid c.1 c.2 _ pm' hl
  constructor
  · rw [calls_remaining_after, hl]
    exact h0
  · rw [calls_remaining_after, recordCalls_append, hnext,
      calls_remaining_after, hl]
    simp only [updated_metrics]
    omega

/-- Witness for C8: with a budget of 3, one recorded call leaves a
non-negative remaining budget and a second call does not increase it. -/
theorem C8_budget_monotone_witness :
    0 ≤ calls_remaining_after "s1" "serial" 3 [(5, true)] ∧
    calls_remaining_after "s1" "serial" 3 ([(5, true)] ++ [(7, false)]) ≤
      calls_remaining_after "s1" "serial" 3 [(5, true)] :=
  C8_budget_monotone "s1" "serial" 3 (by decide) [(5, true)] (7, false)

end RoutingEnforcement
